import Mathlib

/-!
Shallow embedding of the LiteLLM proxy server (`src/server.py`).

The server is a small FastAPI app:
  * pydantic models `Message` and `ChatCompletionRequest` (with defaults),
  * `POST /v1/chat/completions`: builds a parameter dict from the validated
    request, removes entries whose value is `None`, calls
    `litellm.completion(**params)` and returns its result; any exception is
    converted to `HTTPException(status_code=500, detail=...)`,
  * `POST /chat/completions`: alias that just calls the previous handler,
  * `GET /v1/models`: a hard-coded constant catalog of five models.

JSON documents are modelled by `JsonValue` with numbers as rationals (the
requests and parameters in scope only carry, compare and copy numbers, never
compute with them; integers are rationals with denominator 1).  The pydantic
validation step that FastAPI performs before a handler runs is modelled by
`parseChatCompletionRequest`: a missing field resolves to its declared
default, an explicit `null` is a valid value for an `Optional` field and
resolves to `None`, a wrongly-typed value is a validation error, and FastAPI
answers validation errors with HTTP status 422.  The external
`litellm.completion` call is an opaque oracle passed as a parameter: it
either returns a response document or fails with a message (the Python
exception's string representation).
-/

set_option autoImplicit false

namespace LiteLLMProxy

/-- A JSON document.  Numbers are rationals (see the file docstring). -/
inductive JsonValue where
  | null : JsonValue
  | bool : Bool → JsonValue
  | num : Rat → JsonValue
  | str : String → JsonValue
  | arr : List JsonValue → JsonValue
  | obj : List (String × JsonValue) → JsonValue

/-- `True` exactly on the JSON `null`, the image of Python's `None`. -/
def JsonValue.isNull : JsonValue → Bool
  | .null => true
  | _ => false

/-- First value bound to `key` in a JSON object's field list, if any. -/
def lookupField : List (String × JsonValue) → String → Option JsonValue
  | [], _ => none
  | (k, v) :: rest, key => if k == key then some v else lookupField rest key

/-- Whether the field list binds `key` at all. -/
def hasKey (fields : List (String × JsonValue)) (key : String) : Bool :=
  fields.any (fun kv => kv.1 == key)

/-- Pydantic model `Message` of `src/server.py` (lines 17-19): a chat message
with a `role` and a `content`, both strings. -/
structure Message where
  role : String
  content : String
deriving DecidableEq

/-- Pydantic model `ChatCompletionRequest` of `src/server.py` (lines 21-30),
after validation.  Every `Optional` field is an `Option`; the values written
here are the declared defaults, used when the caller omits the field.
`max_tokens` is an integer in the source; here it is a rational whose
denominator the validator checks to be 1. -/
structure ChatCompletionRequest where
  model : String := "groq/llama-3.3-70b-versatile"
  messages : List Message
  temperature : Option Rat := some 0.7
  max_tokens : Option Rat := none
  top_p : Option Rat := some 1.0
  frequency_penalty : Option Rat := some 0.0
  presence_penalty : Option Rat := some 0.0
  stop : Option (List String) := none
  stream : Option Bool := some false
deriving DecidableEq

/-- Validation of an `Optional[float]` pydantic field: an absent field takes
the declared default `d`, an explicit `null` is the value `None`, a number is
itself, anything else is a validation error. -/
def resolveOptNum (j : Option JsonValue) (d : Option Rat) :
    Except String (Option Rat) :=
  match j with
  | none => .ok d
  | some .null => .ok none
  | some (.num q) => .ok (some q)
  | some _ => .error "Input should be a valid number"

/-- Validation of an `Optional[int]` pydantic field: as `resolveOptNum`, but
the number must be integral. -/
def resolveOptIntNum (j : Option JsonValue) (d : Option Rat) :
    Except String (Option Rat) :=
  match j with
  | none => .ok d
  | some .null => .ok none
  | some (.num q) =>
      if q.den == 1 then .ok (some q) else .error "Input should be a valid integer"
  | some _ => .error "Input should be a valid integer"

/-- Validation of an `Optional[bool]` pydantic field. -/
def resolveOptBool (j : Option JsonValue) (d : Option Bool) :
    Except String (Option Bool) :=
  match j with
  | none => .ok d
  | some .null => .ok none
  | some (.bool b) => .ok (some b)
  | some _ => .error "Input should be a valid boolean"

/-- A JSON value required to be a string. -/
def asString : JsonValue → Except String String
  | .str s => .ok s
  | _ => .error "Input should be a valid string"

/-- Validation of the `Optional[List[str]]` field `stop` (default `None`). -/
def resolveOptStrList (j : Option JsonValue) :
    Except String (Option (List String)) :=
  match j with
  | none => .ok none
  | some .null => .ok none
  | some (.arr xs) =>
      match xs.mapM asString with
      | .ok l => .ok (some l)
      | .error e => .error e
  | some _ => .error "Input should be a valid list"

/-- Validation of the non-optional `model : str` field with its default: an
absent field takes the default, a string is itself, anything else (including
`null`, since the field is not `Optional`) is a validation error. -/
def resolveStrDefault (j : Option JsonValue) (d : String) :
    Except String String :=
  match j with
  | none => .ok d
  | some (.str s) => .ok s
  | some _ => .error "Input should be a valid string"

/-- Validation of one element of `messages` against the `Message` model:
`role` and `content` must both be present as strings; any other field of the
object is ignored (pydantic's default behaviour for extra fields). -/
def parseMessage : JsonValue → Except String Message
  | .obj fields =>
      match lookupField fields "role", lookupField fields "content" with
      | some (.str r), some (.str c) => .ok ⟨r, c⟩
      | _, _ => .error "message must have string role and content"
  | _ => .error "Input should be a valid dictionary"

/-- Validation of the required `messages : List[Message]` field: it must be
present and be an array of valid messages.  pydantic's `List` puts no lower
bound on the length, so the empty array is accepted. -/
def resolveMessages (j : Option JsonValue) : Except String (List Message) :=
  match j with
  | some (.arr xs) => xs.mapM parseMessage
  | _ => .error "messages field required and must be an array"

/-- FastAPI's request-body validation of `ChatCompletionRequest`: resolve
every field of the pydantic model, failing if any single field fails.  This
runs before `chat_completions` is entered. -/
def parseChatCompletionRequest (v : JsonValue) :
    Except String ChatCompletionRequest :=
  match v with
  | .obj fields =>
    match resolveStrDefault (lookupField fields "model") "groq/llama-3.3-70b-versatile" with
    | .error e => .error e
    | .ok model =>
    match resolveMessages (lookupField fields "messages") with
    | .error e => .error e
    | .ok messages =>
    match resolveOptNum (lookupField fields "temperature") (some 0.7) with
    | .error e => .error e
    | .ok temperature =>
    match resolveOptIntNum (lookupField fields "max_tokens") none with
    | .error e => .error e
    | .ok max_tokens =>
    match resolveOptNum (lookupField fields "top_p") (some 1.0) with
    | .error e => .error e
    | .ok top_p =>
    match resolveOptNum (lookupField fields "frequency_penalty") (some 0.0) with
    | .error e => .error e
    | .ok frequency_penalty =>
    match resolveOptNum (lookupField fields "presence_penalty") (some 0.0) with
    | .error e => .error e
    | .ok presence_penalty =>
    match resolveOptStrList (lookupField fields "stop") with
    | .error e => .error e
    | .ok stop =>
    match resolveOptBool (lookupField fields "stream") (some false) with
    | .error e => .error e
    | .ok stream =>
      .ok ⟨model, messages, temperature, max_tokens, top_p,
           frequency_penalty, presence_penalty, stop, stream⟩
  | _ => .error "Input should be a valid dictionary"

/-- `src/server.py` line 88: each pydantic message becomes the two-key dict
`\x7b"role": msg.role, "content": msg.content\x7d`. -/
def messagesToDicts (msgs : List Message) : List JsonValue :=
  msgs.map (fun m => .obj [("role", .str m.role), ("content", .str m.content)])

/-- A Python `Optional` rational as a JSON value: `None` becomes `null`. -/
def optNum : Option Rat → JsonValue
  | none => .null
  | some q => .num q

/-- A Python `Optional[bool]` as a JSON value. -/
def optBool : Option Bool → JsonValue
  | none => .null
  | some b => .bool b

/-- A Python `Optional[List[str]]` as a JSON value. -/
def optStrList : Option (List String) → JsonValue
  | none => .null
  | some l => .arr (l.map JsonValue.str)

/-- `src/server.py` lines 91-101: the `litellm_params` dict before the
`None`-stripping pass, in the insertion order of the source. -/
def rawLitellmParams (request : ChatCompletionRequest) :
    List (String × JsonValue) :=
  [("model", .str request.model),
   ("messages", .arr (messagesToDicts request.messages)),
   ("temperature", optNum request.temperature),
   ("max_tokens", optNum request.max_tokens),
   ("top_p", optNum request.top_p),
   ("frequency_penalty", optNum request.frequency_penalty),
   ("presence_penalty", optNum request.presence_penalty),
   ("stop", optStrList request.stop),
   ("stream", optBool request.stream)]

/-- `src/server.py` line 104: `\x7bk: v for k, v in litellm_params.items() if
v is not None\x7d` — the parameter set actually forwarded to
`litellm.completion`. -/
def litellm_params (request : ChatCompletionRequest) :
    List (String × JsonValue) :=
  (rawLitellmParams request).filter (fun kv => !kv.2.isNull)

/-- An HTTP response: status code and JSON body. -/
structure HTTPResponse where
  status : Nat
  body : JsonValue

/-- The opaque external `litellm.completion` call: from a parameter set it
either returns a response document or raises, carrying the exception's
string representation. -/
def CompletionOracle : Type :=
  List (String × JsonValue) → Except String JsonValue

/-- Handler `chat_completions` (`src/server.py` lines 83-112) after request
validation: forward the `None`-stripped parameters to the external call;
return its result unchanged with status 200, or turn any exception into the
HTTP 500 response FastAPI renders for
`HTTPException(status_code=500, detail=...)`. -/
def chat_completions (completion : CompletionOracle)
    (request : ChatCompletionRequest) : HTTPResponse :=
  match completion (litellm_params request) with
  | .ok resp => ⟨200, resp⟩
  | .error e =>
      ⟨500, .obj [("detail", .str ("Error processing request: " ++ e))]⟩

/-- Handler `chat_completions_simple` (`src/server.py` lines 114-117): the
`/chat/completions` alias just returns `await chat_completions(request)`. -/
def chat_completions_simple (completion : CompletionOracle)
    (request : ChatCompletionRequest) : HTTPResponse :=
  chat_completions completion request

/-- FastAPI's response to a request-body validation failure: HTTP 422 with
the error detail.  (The real body is a list of error records; only its
status and the fact that it is not the 500 path matter here.) -/
def validationErrorResponse (e : String) : HTTPResponse :=
  ⟨422, .obj [("detail", .str e)]⟩

/-- The full `POST /v1/chat/completions` route: validate the body against
`ChatCompletionRequest` (422 on failure), then run `chat_completions`. -/
def postV1ChatCompletions (completion : CompletionOracle)
    (body : JsonValue) : HTTPResponse :=
  match parseChatCompletionRequest body with
  | .error e => validationErrorResponse e
  | .ok request => chat_completions completion request

/-- The full `POST /chat/completions` route: the same validation, then the
alias handler `chat_completions_simple`. -/
def postChatCompletions (completion : CompletionOracle)
    (body : JsonValue) : HTTPResponse :=
  match parseChatCompletionRequest body with
  | .error e => validationErrorResponse e
  | .ok request => chat_completions_simple completion request

/-- The five entries of the hard-coded catalog returned by `GET /v1/models`
(`src/server.py` lines 44-81). -/
def modelCatalog : List JsonValue :=
  [.obj [("id", .str "groq/llama-3.3-70b-versatile"),
         ("object", .str "model"),
         ("created", .num 1234567890),
         ("owned_by", .str "groq")],
   .obj [("id", .str "groq/llama-3.1-8b-instant"),
         ("object", .str "model"),
         ("created", .num 1234567890),
         ("owned_by", .str "groq")],
   .obj [("id", .str "groq/deepseek-r1-distill-llama-70b"),
         ("object", .str "model"),
         ("created", .num 1234567890),
         ("owned_by", .str "groq")],
   .obj [("id", .str "groq/meta-llama/llama-4-maverick-17b-128e-instruct"),
         ("object", .str "model"),
         ("created", .num 1234567890),
         ("owned_by", .str "groq")],
   .obj [("id", .str "groq/meta-llama/llama-4-scout-17b-16e-instruct"),
         ("object", .str "model"),
         ("created", .num 1234567890),
         ("owned_by", .str "groq")]]

/-- Handler `list_models`: the constant value returned on every call.  It
takes no argument and reads no state, so every call trivially returns the
same catalog whatever happened before. -/
def list_models : JsonValue :=
  .obj [("object", .str "list"), ("data", .arr modelCatalog)]

/-- Field lookup directly on a JSON object value. -/
def lookupObj (v : JsonValue) (key : String) : Option JsonValue :=
  match v with
  | .obj fields => lookupField fields key
  | _ => none

/-- The request body with an empty `messages` array and nothing else:
`\x7b"messages": []\x7d`. -/
def emptyMessagesBody : JsonValue :=
  .obj [("messages", .arr [])]

/-- The request `emptyMessagesBody` validates to: every other field takes
its declared default. -/
def emptyMessagesRequest : ChatCompletionRequest :=
  ⟨"groq/llama-3.3-70b-versatile", [], some 0.7, none, some 1.0, some 0.0,
   some 0.0, none, some false⟩

/-- A request body missing the required `messages` field entirely. -/
def noMessagesBody : JsonValue :=
  .obj []

/-- The §8 example body: model, one user message, temperature 0.7 and
max_tokens 150 supplied; everything else omitted. -/
def exampleBody : JsonValue :=
  .obj [("model", .str "groq/llama-3.3-70b-versatile"),
        ("messages", .arr [.obj [("role", .str "user"),
                                 ("content", .str "Hello! Can you tell me a joke?")]]),
        ("temperature", .num 0.7),
        ("max_tokens", .num 150)]

/-- The request `exampleBody` validates to. -/
def exampleRequest : ChatCompletionRequest :=
  ⟨"groq/llama-3.3-70b-versatile",
   [⟨"user", "Hello! Can you tell me a joke?"⟩],
   some 0.7, some 150, some 1.0, some 0.0, some 0.0, none, some false⟩

/-- Fields of a request body that supplies an explicit `null` for every
optional parameter. -/
def allNullBodyFields : List (String × JsonValue) :=
  [("messages", .arr []),
   ("temperature", .null),
   ("max_tokens", .null),
   ("top_p", .null),
   ("frequency_penalty", .null),
   ("presence_penalty", .null),
   ("stop", .null),
   ("stream", .null)]

/-- The request `JsonValue.obj allNullBodyFields` validates to: every
optional field is `None`, no declared default applies. -/
def allNullRequest : ChatCompletionRequest :=
  ⟨"groq/llama-3.3-70b-versatile", [], none, none, none, none, none, none,
   none⟩

/-! ### Helper lemmas -/

/-- Value-level description of the forwarded parameter set: each of the nine
possible keys is bound exactly when the corresponding request field is set,
and then to the image of its value. -/
theorem litellm_params_lookupField (request : ChatCompletionRequest) :
    lookupField (litellm_params request) "model" = some (.str request.model)
    ∧ lookupField (litellm_params request) "messages"
        = some (.arr (messagesToDicts request.messages))
    ∧ lookupField (litellm_params request) "temperature"
        = request.temperature.map JsonValue.num
    ∧ lookupField (litellm_params request) "max_tokens"
        = request.max_tokens.map JsonValue.num
    ∧ lookupField (litellm_params request) "top_p"
        = request.top_p.map JsonValue.num
    ∧ lookupField (litellm_params request) "frequency_penalty"
        = request.frequency_penalty.map JsonValue.num
    ∧ lookupField (litellm_params request) "presence_penalty"
        = request.presence_penalty.map JsonValue.num
    ∧ lookupField (litellm_params request) "stop"
        = request.stop.map (fun l => JsonValue.arr (l.map JsonValue.str))
    ∧ lookupField (litellm_params request) "stream"
        = request.stream.map JsonValue.bool := by
  obtain ⟨model, messages, t, mt, tp, fp, pp, st, sm⟩ := request
  cases t <;> cases mt <;> cases tp <;> cases fp <;> cases pp <;> cases st <;> cases sm <;>
    exact ⟨rfl, rfl, rfl, rfl, rfl, rfl, rfl, rfl, rfl⟩

/-- No entry of the forwarded parameter set has the value `null`: the
`None`-stripping pass removes them all. -/
theorem litellm_params_not_null (request : ChatCompletionRequest) :
    ∀ kv ∈ litellm_params request, kv.2 ≠ JsonValue.null := by
  intro kv hkv
  have h := List.of_mem_filter hkv
  cases hv : kv.2 <;> simp_all [JsonValue.isNull]

/-- Every key of the forwarded parameter set is one of the nine parameter
names of the source's `litellm_params` dict. -/
theorem litellm_params_keys (request : ChatCompletionRequest) :
    ∀ kv ∈ litellm_params request,
      kv.1 ∈ ["model", "messages", "temperature", "max_tokens", "top_p",
              "frequency_penalty", "presence_penalty", "stop", "stream"] := by
  intro kv hkv
  have h := List.mem_of_mem_filter hkv
  simp only [rawLitellmParams, List.mem_cons, List.not_mem_nil, or_false] at h
  rcases h with h | h | h | h | h | h | h | h | h <;> subst h <;> simp

/-- Successful validation determines every optional field of the result from
the corresponding raw field of the body. -/
theorem parse_ok_fields (fields : List (String × JsonValue))
    (request : ChatCompletionRequest)
    (h : parseChatCompletionRequest (.obj fields) = .ok request) :
    resolveOptNum (lookupField fields "temperature") (some 0.7)
        = .ok request.temperature
    ∧ resolveOptIntNum (lookupField fields "max_tokens") none
        = .ok request.max_tokens
    ∧ resolveOptNum (lookupField fields "top_p") (some 1.0)
        = .ok request.top_p
    ∧ resolveOptNum (lookupField fields "frequency_penalty") (some 0.0)
        = .ok request.frequency_penalty
    ∧ resolveOptNum (lookupField fields "presence_penalty") (some 0.0)
        = .ok request.presence_penalty
    ∧ resolveOptStrList (lookupField fields "stop") = .ok request.stop
    ∧ resolveOptBool (lookupField fields "stream") (some false)
        = .ok request.stream := by
  rw [parseChatCompletionRequest] at h
  rcases h1 : resolveStrDefault (lookupField fields "model")
      "groq/llama-3.3-70b-versatile" with e | model <;> rw [h1] at h
  · exact nomatch h
  rcases h2 : resolveMessages (lookupField fields "messages") with e | msgs <;>
    rw [h2] at h
  · exact nomatch h
  rcases h3 : resolveOptNum (lookupField fields "temperature") (some 0.7)
      with e | t <;> rw [h3] at h
  · exact nomatch h
  rcases h4 : resolveOptIntNum (lookupField fields "max_tokens") none
      with e | mt <;> rw [h4] at h
  · exact nomatch h
  rcases h5 : resolveOptNum (lookupField fields "top_p") (some 1.0)
      with e | tp <;> rw [h5] at h
  · exact nomatch h
  rcases h6 : resolveOptNum (lookupField fields "frequency_penalty") (some 0.0)
      with e | fp <;> rw [h6] at h
  · exact nomatch h
  rcases h7 : resolveOptNum (lookupField fields "presence_penalty") (some 0.0)
      with e | pp <;> rw [h7] at h
  · exact nomatch h
  rcases h8 : resolveOptStrList (lookupField fields "stop") with e | st <;>
    rw [h8] at h
  · exact nomatch h
  rcases h9 : resolveOptBool (lookupField fields "stream") (some false)
      with e | sm <;> rw [h9] at h
  · exact nomatch h
  cases h
  exact ⟨rfl, rfl, rfl, rfl, rfl, rfl, rfl⟩

/-- An explicit `null` for an `Optional[float]` field resolves to `None`,
whatever the declared default is. -/
theorem resolveOptNum_null (d o : Option Rat)
    (h : resolveOptNum (some .null) d = .ok o) : o = none := by
  have h2 : (Except.ok (none : Option Rat) : Except String (Option Rat))
      = .ok o := h
  injection h2 with h3
  exact h3.symm

/-- An explicit `null` for the `Optional[int]` field resolves to `None`. -/
theorem resolveOptIntNum_null (d o : Option Rat)
    (h : resolveOptIntNum (some .null) d = .ok o) : o = none := by
  have h2 : (Except.ok (none : Option Rat) : Except String (Option Rat))
      = .ok o := h
  injection h2 with h3
  exact h3.symm

/-- An explicit `null` for the `Optional[bool]` field resolves to `None`. -/
theorem resolveOptBool_null (d : Option Bool) (o : Option Bool)
    (h : resolveOptBool (some .null) d = .ok o) : o = none := by
  have h2 : (Except.ok (none : Option Bool) : Except String (Option Bool))
      = .ok o := h
  injection h2 with h3
  exact h3.symm

/-- An explicit `null` for the `Optional[List[str]]` field resolves to
`None`. -/
theorem resolveOptStrList_null (o : Option (List String))
    (h : resolveOptStrList (some .null) = .ok o) : o = none := by
  have h2 : (Except.ok (none : Option (List String)) :
      Except String (Option (List String))) = .ok o := h
  injection h2 with h3
  exact h3.symm

/-! ### Claims -/

/-- Claim C1, counterexample.  The claim says a request with `messages = []`
is rejected with a schema error and never forwarded.  In fact pydantic's
`List[Message]` accepts the empty list: validation of
`\x7b"messages": []\x7d` succeeds, the forwarded parameter set carries
`messages = []`, and the HTTP outcome is whatever the provider call decides
(200 for a succeeding oracle, 500 for a raising one), so it is not a
deterministic rejection either. -/
theorem C1_counterexample :
    parseChatCompletionRequest emptyMessagesBody = .ok emptyMessagesRequest
    ∧ lookupField (litellm_params emptyMessagesRequest) "messages"
        = some (.arr [])
    ∧ (postV1ChatCompletions (fun _ => .ok (.str "resp"))
        emptyMessagesBody).status = 200
    ∧ (postV1ChatCompletions (fun _ => .error "boom")
        emptyMessagesBody).status = 500 :=
  ⟨rfl, rfl, rfl, rfl⟩

/-- Claim C1, amended: a request whose `messages` field is the empty
sequence passes schema validation and the Normalizer forwards the empty
`messages` array to the external completion call; any rejection can only
come from that call. -/
theorem C1_empty_messages_forwarded (request : ChatCompletionRequest)
    (h : request.messages = []) :
    lookupField (litellm_params request) "messages" = some (.arr []) := by
  have h2 := (litellm_params_lookupField request).2.1
  rw [h] at h2
  exact h2

/-- Witness for C1's amended theorem at the concrete empty-messages
request. -/
theorem C1_witness :
    lookupField (litellm_params emptyMessagesRequest) "messages"
      = some (.arr []) :=
  C1_empty_messages_forwarded emptyMessagesRequest rfl

/-- Claim C2: for every validated request, the forwarded parameter set has
no `null`-valued entry, every key it binds is one of the nine parameter
names, and each of the nine keys is bound exactly when the corresponding
field is set (caller-supplied or defaulted), to exactly that field's
value. -/
theorem C2_forwarded_param_set (request : ChatCompletionRequest) :
    (∀ kv ∈ litellm_params request, kv.2 ≠ JsonValue.null)
    ∧ (∀ kv ∈ litellm_params request,
        kv.1 ∈ ["model", "messages", "temperature", "max_tokens", "top_p",
                "frequency_penalty", "presence_penalty", "stop", "stream"])
    ∧ lookupField (litellm_params request) "model" = some (.str request.model)
    ∧ lookupField (litellm_params request) "messages"
        = some (.arr (messagesToDicts request.messages))
    ∧ lookupField (litellm_params request) "temperature"
        = request.temperature.map JsonValue.num
    ∧ lookupField (litellm_params request) "max_tokens"
        = request.max_tokens.map JsonValue.num
    ∧ lookupField (litellm_params request) "top_p"
        = request.top_p.map JsonValue.num
    ∧ lookupField (litellm_params request) "frequency_penalty"
        = request.frequency_penalty.map JsonValue.num
    ∧ lookupField (litellm_params request) "presence_penalty"
        = request.presence_penalty.map JsonValue.num
    ∧ lookupField (litellm_params request) "stop"
        = request.stop.map (fun l => JsonValue.arr (l.map JsonValue.str))
    ∧ lookupField (litellm_params request) "stream"
        = request.stream.map JsonValue.bool :=
  ⟨litellm_params_not_null request, litellm_params_keys request,
   litellm_params_lookupField request⟩

/-- Witness for C2 at the §8 example request: the `temperature` entry of
its forwarded parameter set is not `null`, and the unset `stop` field is
absent. -/
theorem C2_witness :
    ("temperature", JsonValue.num 0.7).2 ≠ JsonValue.null
    ∧ lookupField (litellm_params exampleRequest) "stop" = none :=
  ⟨(C2_forwarded_param_set exampleRequest).1 ("temperature", .num 0.7)
      (List.Mem.tail _ (List.Mem.tail _ (List.Mem.head _))),
   (C2_forwarded_param_set exampleRequest).2.2.2.2.2.2.2.2.2.1⟩

/-- Claim C3: any exception from the external completion call is surfaced
as HTTP 500 with body `\x7b"detail": ...\x7d` carrying the exception's
string representation; no fault propagates past the route, whatever the
failure's nature.  (Normalization itself is a total function of the
validated request, so the external call is the only raiser inside the
handler's `try`.) -/
theorem C3_exception_maps_to_500 (completion : CompletionOracle)
    (body : JsonValue) (request : ChatCompletionRequest) (e : String)
    (hp : parseChatCompletionRequest body = .ok request)
    (he : completion (litellm_params request) = .error e) :
    postV1ChatCompletions completion body
      = ⟨500, .obj [("detail", .str ("Error processing request: " ++ e))]⟩ := by
  simp only [postV1ChatCompletions, hp, chat_completions, he]

/-- Witness for C3: a raising oracle on a concrete valid body yields the
500 envelope. -/
theorem C3_witness :
    postV1ChatCompletions (fun _ => .error "boom") emptyMessagesBody
      = ⟨500, .obj [("detail",
          .str ("Error processing request: " ++ "boom"))]⟩ :=
  C3_exception_maps_to_500 (fun _ => .error "boom") emptyMessagesBody
    emptyMessagesRequest "boom" rfl rfl

/-- Claim C4, counterexample.  The claim says schema errors surface with
the same status 500 as upstream failures.  In fact pydantic validation runs
before the handler, and FastAPI answers a validation failure with 422: on
the body `\x7b\x7d` (missing `messages`) the status is 422, not 500. -/
theorem C4_counterexample :
    (postV1ChatCompletions (fun _ => .error "upstream failure")
        noMessagesBody).status = 422
    ∧ (422 : Nat) ≠ 500 :=
  ⟨rfl, by decide⟩

/-- Claim C4, amended: requests with malformed or missing required fields
are rejected by request validation with HTTP 422, so schema errors are
distinguished at the status level from the 500 used for upstream
failures. -/
theorem C4_schema_errors_are_422 (completion : CompletionOracle)
    (body : JsonValue) (e : String)
    (h : parseChatCompletionRequest body = .error e) :
    postV1ChatCompletions completion body = validationErrorResponse e
    ∧ (postV1ChatCompletions completion body).status = 422 := by
  constructor
  · simp only [postV1ChatCompletions, h]
  · simp only [postV1ChatCompletions, h, validationErrorResponse]

/-- Witness for C4's amended theorem on the body missing `messages`. -/
theorem C4_witness :
    postV1ChatCompletions (fun _ => .error "upstream failure") noMessagesBody
      = validationErrorResponse "messages field required and must be an array" :=
  (C4_schema_errors_are_422 (fun _ => .error "upstream failure")
    noMessagesBody "messages field required and must be an array" rfl).1

/-- Claim C5: the §8 example body validates to the expected request, and
the forwarded parameter set is exactly the five supplied keys/values plus
the defaulted `top_p = 1.0`, `frequency_penalty = 0.0`,
`presence_penalty = 0.0` and `stream = false` of the §3 table (`stop`,
unset with default `None`, is stripped).  `litellm_params` is a function of
the request, so repeated calls forward the identical set. -/
theorem C5_example_request :
    parseChatCompletionRequest exampleBody = .ok exampleRequest
    ∧ litellm_params exampleRequest =
      [("model", .str "groq/llama-3.3-70b-versatile"),
       ("messages", .arr [.obj [("role", .str "user"),
                                ("content", .str "Hello! Can you tell me a joke?")]]),
       ("temperature", .num 0.7),
       ("max_tokens", .num 150),
       ("top_p", .num 1.0),
       ("frequency_penalty", .num 0.0),
       ("presence_penalty", .num 0.0),
       ("stream", .bool false)] :=
  ⟨rfl, rfl⟩

/-- Claim C6: for every oracle and every request body, the alias route
`POST /chat/completions` produces exactly the response of
`POST /v1/chat/completions` — same validation, and the alias handler just
calls the primary handler. -/
theorem C6_alias_equivalent (completion : CompletionOracle)
    (body : JsonValue) :
    postChatCompletions completion body
      = postV1ChatCompletions completion body := rfl

/-- Claim C7: `GET /v1/models` returns the constant catalog
`\x7bobject: "list", data: [...]\x7d` whose `data` has exactly five
entries, carrying the five fixed identifiers, each with `object = "model"`,
`created = 1234567890`, `owned_by = "groq"` and an `id`.  The handler takes
no input and reads no state, so every call returns this same value whatever
the upstream provider or previous requests did. -/
theorem C7_models_catalog :
    lookupObj list_models "object" = some (.str "list")
    ∧ lookupObj list_models "data" = some (.arr modelCatalog)
    ∧ modelCatalog.length = 5
    ∧ modelCatalog.map (fun m => lookupObj m "id") =
        [some (.str "groq/llama-3.3-70b-versatile"),
         some (.str "groq/llama-3.1-8b-instant"),
         some (.str "groq/deepseek-r1-distill-llama-70b"),
         some (.str "groq/meta-llama/llama-4-maverick-17b-128e-instruct"),
         some (.str "groq/meta-llama/llama-4-scout-17b-16e-instruct")]
    ∧ ∀ m ∈ modelCatalog,
        (lookupObj m "id").isSome = true
        ∧ lookupObj m "object" = some (.str "model")
        ∧ lookupObj m "created" = some (.num 1234567890)
        ∧ lookupObj m "owned_by" = some (.str "groq") := by
  refine ⟨rfl, rfl, rfl, rfl, ?_⟩
  intro m hm
  simp only [modelCatalog, List.mem_cons, List.not_mem_nil, or_false] at hm
  rcases hm with rfl | rfl | rfl | rfl | rfl <;> exact ⟨rfl, rfl, rfl, rfl⟩

/-- Witness for C7 at the catalog's first entry. -/
theorem C7_witness :
    lookupObj (JsonValue.obj
        [("id", .str "groq/llama-3.3-70b-versatile"),
         ("object", .str "model"),
         ("created", .num 1234567890),
         ("owned_by", .str "groq")]) "object" = some (.str "model") :=
  (C7_models_catalog.2.2.2.2 _ (List.Mem.head _)).2.1

/-- Claim C8: when the external completion call succeeds, its result object
is the HTTP response body, unchanged — no field renamed, added, removed or
reinterpreted — with status 200. -/
theorem C8_response_forwarded_unchanged (completion : CompletionOracle)
    (body : JsonValue) (request : ChatCompletionRequest) (resp : JsonValue)
    (hp : parseChatCompletionRequest body = .ok request)
    (hc : completion (litellm_params request) = .ok resp) :
    postV1ChatCompletions completion body = ⟨200, resp⟩ := by
  simp only [postV1ChatCompletions, hp, chat_completions, hc]

/-- Witness for C8: a concrete oracle result is echoed verbatim. -/
theorem C8_witness :
    postV1ChatCompletions (fun _ => .ok (.str "unchanged")) emptyMessagesBody
      = ⟨200, .str "unchanged"⟩ :=
  C8_response_forwarded_unchanged (fun _ => .ok (.str "unchanged"))
    emptyMessagesBody emptyMessagesRequest (.str "unchanged") rfl rfl

/-- Claim C9: if the caller supplies an explicit `null` for an optional
field, that field validates to `None` and is stripped from the forwarded
parameter set — the documented default is not applied, leaving the
downstream library's own default to take effect. -/
theorem C9_null_overrides_default (fields : List (String × JsonValue))
    (request : ChatCompletionRequest)
    (h : parseChatCompletionRequest (.obj fields) = .ok request) :
    (lookupField fields "temperature" = some .null →
        request.temperature = none
        ∧ lookupField (litellm_params request) "temperature" = none)
    ∧ (lookupField fields "max_tokens" = some .null →
        request.max_tokens = none
        ∧ lookupField (litellm_params request) "max_tokens" = none)
    ∧ (lookupField fields "top_p" = some .null →
        request.top_p = none
        ∧ lookupField (litellm_params request) "top_p" = none)
    ∧ (lookupField fields "frequency_penalty" = some .null →
        request.frequency_penalty = none
        ∧ lookupField (litellm_params request) "frequency_penalty" = none)
    ∧ (lookupField fields "presence_penalty" = some .null →
        request.presence_penalty = none
        ∧ lookupField (litellm_params request) "presence_penalty" = none)
    ∧ (lookupField fields "stop" = some .null →
        request.stop = none
        ∧ lookupField (litellm_params request) "stop" = none)
    ∧ (lookupField fields "stream" = some .null →
        request.stream = none
        ∧ lookupField (litellm_params request) "stream" = none) := by
  obtain ⟨h1, h2, h3, h4, h5, h6, h7⟩ := parse_ok_fields fields request h
  obtain ⟨-, -, l3, l4, l5, l6, l7, l8, l9⟩ := litellm_params_lookupField request
  refine ⟨fun hn => ?_, fun hn => ?_, fun hn => ?_, fun hn => ?_,
          fun hn => ?_, fun hn => ?_, fun hn => ?_⟩
  · rw [hn] at h1
    have ht := resolveOptNum_null _ _ h1
    rw [ht] at l3
    exact ⟨ht, l3⟩
  · rw [hn] at h2
    have ht := resolveOptIntNum_null _ _ h2
    rw [ht] at l4
    exact ⟨ht, l4⟩
  · rw [hn] at h3
    have ht := resolveOptNum_null _ _ h3
    rw [ht] at l5
    exact ⟨ht, l5⟩
  · rw [hn] at h4
    have ht := resolveOptNum_null _ _ h4
    rw [ht] at l6
    exact ⟨ht, l6⟩
  · rw [hn] at h5
    have ht := resolveOptNum_null _ _ h5
    rw [ht] at l7
    exact ⟨ht, l7⟩
  · rw [hn] at h6
    have ht := resolveOptStrList_null _ h6
    rw [ht] at l8
    exact ⟨ht, l8⟩
  · rw [hn] at h7
    have ht := resolveOptBool_null _ _ h7
    rw [ht] at l9
    exact ⟨ht, l9⟩

/-- Witness for C9 on the body supplying `null` for every optional field:
its `temperature` resolves to `None` and is absent from the forwarded
set. -/
theorem C9_witness :
    allNullRequest.temperature = none
    ∧ lookupField (litellm_params allNullRequest) "temperature" = none :=
  (C9_null_overrides_default allNullBodyFields allNullRequest rfl).1 rfl

/-- Claim C10: the messages forwarded to the external call have the same
length and order as the caller's, element `i` being exactly the two-key
dict of the input message's `role` and `content`; and validating a message
object keeps only `role` and `content`, so any extra field of an input
message is dropped. -/
theorem C10_messages_conversion (request : ChatCompletionRequest) :
    (messagesToDicts request.messages).length = request.messages.length
    ∧ (∀ i : Nat, (messagesToDicts request.messages)[i]? =
        (request.messages[i]?).map
          (fun m => JsonValue.obj [("role", .str m.role),
                                   ("content", .str m.content)]))
    ∧ (∀ (fields : List (String × JsonValue)) (r c : String),
        lookupField fields "role" = some (.str r) →
        lookupField fields "content" = some (.str c) →
        parseMessage (.obj fields) = .ok ⟨r, c⟩) := by
  refine ⟨by simp [messagesToDicts], fun i => ?_, fun fields r c hr hc => ?_⟩
  · simp [messagesToDicts]
  · simp only [parseMessage, hr, hc]

/-- Witness for C10: a message object with an extra field validates to just
its `role` and `content`. -/
theorem C10_witness :
    parseMessage (.obj [("role", .str "user"), ("content", .str "hi"),
        ("extra", .num 1)]) = .ok ⟨"user", "hi"⟩ :=
  (C10_messages_conversion emptyMessagesRequest).2.2
    [("role", .str "user"), ("content", .str "hi"), ("extra", .num 1)]
    "user" "hi" rfl rfl

end LiteLLMProxy
